import Mathlib

/-
Verification development for the challenge-workflow core of the Gnosis
repository.  The definitions below are a shallow embedding of the Python
source:

  * `challenge_state.py`   — the `ChallengeState` TypedDict
  * `challenge_graph.py`   — the stage functions (`tutor_agent_node`,
    `coding_challenge_agent_node`, `await_code_node`, `code_evaluator_node`,
    `remediation_agent_node`), the router `route_evaluation`, the workflow
    edges declared in `create_challenge_workflow`, and `create_initial_state`
  * `agents/challenge_evaluation_agents.py` — the hint-level computation of
    `generate_remediation` / `run_remediation_agent` and the
    decode/normalize/retry pipeline shared by `generate_coding_challenge`,
    `evaluate_submission` and `generate_remediation`
  * `app.py`               — the guard-and-effect skeleton of the
    `submit_challenge` endpoint

External collaborators (the LLM calls, `json.loads`, the LangGraph runtime
and the SQLite database) are modelled as parameters: an LLM-backed agent
call is an `Except String α` argument (error = the Python exception message),
`json.loads` is an abstract `decode` argument, database writes are recorded
as a list of effects, and the LangGraph checkpoint state reached after
streaming is passed in explicitly.
-/

deriving instance DecidableEq for Except

namespace Gnosis

/-- Evaluation document produced by the Code Evaluator Agent
(`evaluate_submission` output JSON: passed, score, errors, feedback, ...).
Nothing validates the decoded schema, so the `passed` field is the boolean
value of the "passed" key when it is present and usable; `none` stands for
a decoded document without a usable boolean "passed" key, on which the
truthiness test `result["evaluation"]["passed"]` at
`challenge_graph.py` line 170 raises (KeyError / TypeError). -/
structure Evaluation where
  passed : Option Bool
  score : Nat
  errors : List String
  feedback : String
deriving DecidableEq, Repr

/-- Remediation payload produced by the Remediation Agent
(`generate_remediation` output JSON). -/
structure Remediation where
  hint_level : Nat
  targeted_hint : String
  encouragement : String
deriving DecidableEq, Repr

/-- One entry of `submission_history` as appended by `code_evaluator_node`
(`challenge_graph.py` lines 162-168). -/
structure SubmissionEntry where
  attempt : Nat
  submission : Option String
  evaluation : Evaluation
  timestamp : String
deriving DecidableEq, Repr

/-- The `ChallengeState` TypedDict of `challenge_state.py`.  Nullable or
possibly-absent content fields are `Option`; `attempt_count` and
`submission_history` are read in the source through `.get` with defaults
`0` and `[]`, so they are modelled directly as `Nat` and `List`. -/
structure ChallengeState where
  user_id : Nat
  module_number : Nat
  challenge_number : Nat
  challenge_data : String
  experience_level : String
  learning_goal_type : String
  lesson_markdown : Option String
  coding_challenge : Option String
  evaluation : Option Evaluation
  remediation : Option Remediation
  user_code : Option String
  attempt_count : Nat
  submission_history : List SubmissionEntry
  status : String
  max_attempts : Nat
  session_id : String
  started_at : String
  completed_at : Option String
  error : Option String
  error_node : Option String
deriving DecidableEq, Repr

/-- Python truthiness of an optional string (`if state.get(...)`):
`None` and the empty string are falsy. -/
def truthyStr : Option String → Bool
  | none => false
  | some s => !s.isEmpty

/-- `tutor_agent_node` (`challenge_graph.py` lines 21-79).  The whole
`try` body (database reads plus `run_tutor_agent`) is abstracted as
`result : Except String String` carrying the produced lesson markdown or
the exception message. -/
def tutor_agent_node (s : ChallengeState) (result : Except String String) :
    ChallengeState :=
  match result with
  | .ok lesson =>
      { s with lesson_markdown := some lesson, status := "lesson_ready" }
  | .error e =>
      { s with error := some e, error_node := some "tutor_agent",
               status := "error" }

/-- `coding_challenge_agent_node` (`challenge_graph.py` lines 82-117).
`run_coding_challenge_agent` is abstracted as `result`; the produced
challenge document is kept opaque as a `String`. -/
def coding_challenge_agent_node (s : ChallengeState)
    (result : Except String String) : ChallengeState :=
  match result with
  | .ok ch =>
      { s with coding_challenge := some ch, status := "awaiting_code" }
  | .error e =>
      { s with error := some e, error_node := some "coding_challenge_agent",
               status := "error" }

/-- `await_code_node` (`challenge_graph.py` lines 120-140): the suspend
point.  With no (truthy) submission it sets the error slot to
"No user code submitted" and keeps status `awaiting_code`; with a
submission it sets status `evaluating`.  It makes no external call. -/
def await_code_node (s : ChallengeState) : ChallengeState :=
  if truthyStr s.user_code = false then
    { s with error := some "No user code submitted", status := "awaiting_code" }
  else
    { s with status := "evaluating" }

/-- `code_evaluator_node` (`challenge_graph.py` lines 143-191).
`run_code_evaluator_agent` (and the `state[...]` accesses feeding it,
including the `result["evaluation"]` access inside the history-entry dict
literal at line 166, all of which raise before the append takes effect)
is abstracted as `result`; `datetime.now().isoformat()` is the `now`
argument.  When the decoded document is obtained, the source appends the
history entry to the list aliased from the state (lines 162-168) and only
then tests `result["evaluation"]["passed"]` (line 170); if that access
raises (no usable boolean "passed" key, modelled as `ev.passed = none`),
the `except` branch returns `\x7b**state, ...\x7d` whose
`submission_history` already carries the appended entry while
`attempt_count` is unchanged (the incremented value lives only in a local
variable).  The Python error string renders the missing key in quotes;
here it is written "KeyError: passed". -/
def code_evaluator_node (s : ChallengeState)
    (result : Except String Evaluation) (now : String) : ChallengeState :=
  match result with
  | .ok ev =>
      let attempt_count := s.attempt_count + 1
      let submission_history := s.submission_history ++
        [{ attempt := attempt_count, submission := s.user_code,
           evaluation := ev, timestamp := now }]
      match ev.passed with
      | some true =>
          { s with evaluation := some ev, attempt_count := attempt_count,
                   submission_history := submission_history,
                   status := "passed", completed_at := some now }
      | some false =>
          { s with evaluation := some ev, attempt_count := attempt_count,
                   submission_history := submission_history,
                   status := "needs_remediation", completed_at := none }
      | none =>
          { s with submission_history := submission_history,
                   error := some "KeyError: passed",
                   error_node := some "code_evaluator", status := "error" }
  | .error e =>
      { s with error := some e, error_node := some "code_evaluator",
               status := "error" }

/-- `remediation_agent_node` (`challenge_graph.py` lines 194-223).
`run_remediation_agent` is abstracted as `result`.  On success it stores
the remediation, returns to `awaiting_code` and clears `user_code`. -/
def remediation_agent_node (s : ChallengeState)
    (result : Except String Remediation) : ChallengeState :=
  match result with
  | .ok rem =>
      { s with remediation := some rem, status := "awaiting_code",
               user_code := none }
  | .error e =>
      { s with error := some e, error_node := some "remediation_agent",
               status := "error" }

/-- The two labels `route_evaluation` can return. -/
inductive Route where
  | complete
  | retry
deriving DecidableEq, Repr

/-- `state.get("evaluation", \x7b\x7d).get("passed", False)` of
`challenge_graph.py` line 239: a missing evaluation or a missing
"passed" key both default to False. -/
def evalPassed (s : ChallengeState) : Bool :=
  match s.evaluation with
  | none => false
  | some ev => ev.passed.getD false

/-- `route_evaluation` (`challenge_graph.py` lines 226-245): errored
states and failed evaluations both go to "retry"; only a passed
evaluation goes to "complete".  Neither `attempt_count` nor
`max_attempts` is read. -/
def route_evaluation (s : ChallengeState) : Route :=
  if truthyStr s.error then
    Route.retry
  else if evalPassed s then
    Route.complete
  else
    Route.retry

/-- The nodes of the workflow graph declared in
`create_challenge_workflow` (`challenge_graph.py` lines 259-282), plus
the LangGraph terminal node END. -/
inductive Node where
  | tutor_agent
  | coding_challenge_agent
  | await_code
  | code_evaluator
  | remediation_agent
  | END
deriving DecidableEq, Repr

/-- The conditional-edge mapping of `create_challenge_workflow`
(lines 273-280): "complete" goes to END, "retry" goes to the
remediation stage. -/
def routeTarget : Route → Node
  | .complete => .END
  | .retry => .remediation_agent

/-- The edge relation of the compiled workflow
(`create_challenge_workflow`, lines 267-282): entry point is
`tutor_agent`; the only conditional edge leaves `code_evaluator` via
`route_evaluation`. -/
def nextNode : Node → ChallengeState → Option Node
  | .tutor_agent, _ => some .coding_challenge_agent
  | .coding_challenge_agent, _ => some .await_code
  | .await_code, _ => some .code_evaluator
  | .code_evaluator, s => some (routeTarget (route_evaluation s))
  | .remediation_agent, _ => some .await_code
  | .END, _ => none

/-- `interrupt_before=["await_code"]` of `create_challenge_workflow`
line 290: the graph suspends before executing the suspend point. -/
def interrupt_before : List Node := [Node.await_code]

/-- `create_initial_state` (`challenge_graph.py` lines 296-335).
Content fields not present in the initial dict are `none`. -/
def create_initial_state (user_id module_number challenge_number : Nat)
    (challenge_data experience_level learning_goal_type : String)
    (max_attempts : Nat) (started_at : String) : ChallengeState :=
  { user_id := user_id
    module_number := module_number
    challenge_number := challenge_number
    challenge_data := challenge_data
    experience_level := experience_level
    learning_goal_type := learning_goal_type
    lesson_markdown := none
    coding_challenge := none
    evaluation := none
    remediation := none
    user_code := none
    attempt_count := 0
    submission_history := []
    status := "creating_lesson"
    max_attempts := max_attempts
    session_id := "user_" ++ toString user_id ++ "_m" ++
      toString module_number ++ "_c" ++ toString challenge_number
    started_at := started_at
    completed_at := none
    error := none
    error_node := none }

/-- `hint_level = min(attempt_count, 3)` of `generate_remediation`
(`challenge_evaluation_agents.py` line 539); the same expression appears
in `run_remediation_agent` (line 640). -/
def hint_level (attempt_count : Nat) : Nat :=
  min attempt_count 3

/-- The default value of the `attempt_count` parameter of
`run_remediation_agent` (`challenge_evaluation_agents.py` line 628);
in Python a default applies only when the argument is omitted. -/
def remediation_default_attempt_count : Nat := 1

/-- Python `\s` whitespace for the ASCII range, as used by the
trailing-comma regex of the JSON repair. -/
def isPyWs (c : Char) : Bool :=
  c = ' ' || c = '\t' || c = '\n' || c = '\r' || c = '\x0b' || c = '\x0c'

/-- Left-to-right scan implementing Python
`re.sub(r',(\s*[\x7d\]])', r'\1', text)` on a character list.  The first
argument holds a pending match attempt: `some ws` means a comma followed
by the whitespace run `ws` has been read and not yet resolved.  Matches
are non-overlapping and scanning resumes after each replaced match,
exactly as `re.sub` does. -/
def stripAux : Option (List Char) → List Char → List Char
  | none, [] => []
  | some ws, [] => ',' :: ws
  | none, c :: rest =>
      if c = ',' then stripAux (some []) rest
      else c :: stripAux none rest
  | some ws, c :: rest =>
      if c = '}' || c = ']' then ws ++ c :: stripAux none rest
      else if isPyWs c then stripAux (some (ws ++ [c])) rest
      else if c = ',' then ',' :: (ws ++ stripAux (some []) rest)
      else ',' :: (ws ++ c :: stripAux none rest)

/-- The trailing-separator normalization applied on decode failure
(`challenge_evaluation_agents.py` lines 314, 466, 614):
`re.sub(r',(\s*[\x7d\]])', r'\1', response_text)`. -/
def normalizeJson (s : String) : String :=
  String.mk (stripAux none s.data)

/-- The decode / normalize-once / retry-once pipeline shared verbatim by
`generate_coding_challenge` (lines 307-322), `evaluate_submission`
(lines 457-474) and `generate_remediation` (lines 607-622).  `decode`
abstracts `json.loads`; on the second failure the code raises
`Exception(f"Failed to parse JSON from LLM response: \x7be2\x7d")`, a
plain `Exception` whose message carries only the second (post-
normalization) decode diagnostic `e2`; the raw text and the first
diagnostic are printed, not attached.  The result is either a whole
decoded document or an error — never a part of a document. -/
def parseWithRepair {Doc : Type} (decode : String → Except String Doc)
    (text : String) : Except String Doc :=
  match decode text with
  | .ok d => .ok d
  | .error _ =>
      match decode (normalizeJson text) with
      | .ok d => .ok d
      | .error e2 =>
          .error ("Failed to parse JSON from LLM response: " ++ e2)

/-- Challenge-progress record as read by `submit_challenge`
(`app.py` lines 433-444): `db.get_challenge_progress` result with the
fields the endpoint consults. -/
structure ChallengeProgress where
  lesson_markdown : Option String
  coding_challenge : Option String
  status : String
  attempt_count : Nat
deriving DecidableEq, Repr

/-- Database / graph side effects performed by `submit_challenge`
(`app.py` lines 451-477), in program order. -/
inductive DBEffect where
  | updateGraphState (code : String)
  | recordSubmission (code : String) (ev : Evaluation)
  | completeChallenge
  | unlockNextChallenge
deriving DecidableEq, Repr

/-- The JSON body returned by `submit_challenge` (`app.py`
lines 482-487). -/
structure SubmitResponse where
  evaluation : Evaluation
  remediation : Option Remediation
  status : String
  attempt_count : Nat
deriving DecidableEq, Repr

/-- Outcome of one `submit_challenge` call: an HTTP error response or a
success body; either way the list of database/graph effects performed
before returning is carried. -/
inductive SubmitResult where
  | httpError (statusCode : Nat) (detail : String) (effects : List DBEffect)
  | ok (resp : SubmitResponse) (effects : List DBEffect)
deriving DecidableEq, Repr

/-- `submit_challenge` (`app.py` lines 408-490).  `userExists` abstracts
`db.get_first_user_profile`, `progress` abstracts
`db.get_challenge_progress`, and `postState` is the LangGraph state after
`update_state` plus streaming (the runtime semantics of the external
LangGraph library).  Every `HTTPException` raised inside the `try` block
is caught by the trailing `except Exception` and re-raised as a 500
("Submission failed: ..."), which is reproduced here.  Once the guards
pass, `update_state` runs, then `db.record_submission` (line 467) runs
unconditionally before `state_values["evaluation"]["passed"]` is tested
(line 475), so a missing "passed" key yields a 500 after the submission
was already recorded.  Note that no guard consults `progress.status`:
there is no precondition check on a terminal ("passed") session. -/
def submit_challenge (userExists : Bool) (progress : Option ChallengeProgress)
    (code : String) (postState : ChallengeState) : SubmitResult :=
  if userExists = false then
    .httpError 500 "Submission failed: 404: No user profile found" []
  else
    match progress with
    | none =>
        .httpError 500 "Submission failed: 404: Challenge not started" []
    | some p =>
        if truthyStr p.lesson_markdown = false ||
            truthyStr p.coding_challenge = false then
          .httpError 500
            "Submission failed: 400: Challenge content not cached. Please load the challenge first."
            []
        else
          match postState.evaluation with
          | none =>
              .httpError 500 "Submission failed: KeyError: evaluation"
                [DBEffect.updateGraphState code]
          | some ev =>
              let effects :=
                [DBEffect.updateGraphState code,
                 DBEffect.recordSubmission code ev]
              match ev.passed with
              | none =>
                  .httpError 500 "Submission failed: KeyError: passed" effects
              | some b =>
                  let effects :=
                    if b then
                      effects ++ [DBEffect.completeChallenge,
                                  DBEffect.unlockNextChallenge]
                    else effects
                  .ok { evaluation := ev,
                        remediation := postState.remediation,
                        status := postState.status,
                        attempt_count := postState.attempt_count } effects

/-- A concrete state as produced by `create_initial_state`, used by the
concrete instances below. -/
def baseState : ChallengeState :=
  create_initial_state 1 1 1 "challenge-data" "Beginner" "hybrid" 3 "t0"

/-- A concrete failing evaluation verdict. -/
def evFail : Evaluation :=
  { passed := some false, score := 40, errors := ["missing import"],
    feedback := "not yet" }

/-- A concrete passing evaluation verdict. -/
def evPass : Evaluation :=
  { passed := some true, score := 95, errors := [], feedback := "well done" }

/-- A concrete decoded evaluation document without a usable "passed"
key: the truthiness test at `challenge_graph.py` line 170 raises on it,
after the history append has already happened. -/
def evNoKey : Evaluation :=
  { passed := none, score := 0, errors := [], feedback := "no verdict" }

/-- A concrete errored state, as left behind by a failing evaluator stage. -/
def sErr : ChallengeState :=
  { baseState with
    error := some "rate limited", error_node := some "code_evaluator",
    status := "error" }

/-- A concrete state at the suspend point with no submission present. -/
def sAwait : ChallengeState :=
  { baseState with
    status := "awaiting_code",
    lesson_markdown := some "lesson md",
    coding_challenge := some "challenge json" }

/-- A concrete state about to be evaluated, with a submission present. -/
def sEval : ChallengeState :=
  { baseState with
    user_code := some "print(1)", status := "evaluating",
    lesson_markdown := some "lesson md",
    coding_challenge := some "challenge json" }

/-- A concrete cached progress record of a session that already passed. -/
def pPassed : ChallengeProgress :=
  { lesson_markdown := some "lesson md",
    coding_challenge := some "challenge json",
    status := "passed", attempt_count := 2 }

/-- A concrete checkpointed LangGraph state of a session that already
passed (the state `submit_challenge` reads back after streaming). -/
def stPassed : ChallengeState :=
  { baseState with
    status := "passed", evaluation := some evPass,
    attempt_count := 2, user_code := some "print(2)",
    lesson_markdown := some "lesson md",
    coding_challenge := some "challenge json",
    completed_at := some "t9" }

/-- A concrete decoder standing in for `json.loads` on two malformed
inputs: the raw text fails with one diagnostic and its normalization
fails with a different one. -/
def decodeToy : String → Except String Nat := fun s =>
  if s = "[1,,]" then Except.error "first diagnostic"
  else if s = "[1,]" then Except.error "second diagnostic"
  else Except.ok 0

/-- C1 counterexample: on the fresh initial state (counter 0, history
length 0), an evaluator execution whose decoded document lacks a usable
"passed" key appends the history entry in place and only then raises, so
the resulting state has attempt counter 0 but history length 1 — the
counter was not incremented, the equality between history length and
counter is broken, and it stays broken in the checkpointed session. -/
theorem code_evaluator_malformed_counterexample :
    baseState.attempt_count = 0 ∧
    baseState.submission_history.length = 0 ∧
    (code_evaluator_node baseState (Except.ok evNoKey) "t1").status =
      "error" ∧
    (code_evaluator_node baseState (Except.ok evNoKey) "t1").attempt_count =
      0 ∧
    (code_evaluator_node baseState
      (Except.ok evNoKey) "t1").submission_history.length = 1 ∧
    (code_evaluator_node baseState
        (Except.ok evNoKey) "t1").submission_history.length ≠
      (code_evaluator_node baseState
        (Except.ok evNoKey) "t1").attempt_count := by
  decide

/-- C1 amended: every evaluator execution that records a verdict (the
decoded document has a usable boolean "passed" key) increments the
attempt counter by exactly one and appends exactly one entry at the end
of the submission history, preserving history length = counter; an
exception raised before the append leaves both unchanged; but an
exception raised at the "passed" access after the in-place append (no
usable key) yields an error state whose history has grown by the new
entry while the counter is unchanged, so there history length = counter
+ 1.  The attempt counter itself never decreases across any stage
execution. -/
theorem code_evaluator_attempt_invariant (s : ChallengeState)
    (r : Except String Evaluation) (now : String) (n : Nat)
    (hn : s.attempt_count = n) (hh : s.submission_history.length = n) :
    (∀ ev b, r = Except.ok ev → ev.passed = some b →
      (code_evaluator_node s r now).attempt_count = n + 1 ∧
      (code_evaluator_node s r now).submission_history =
        s.submission_history ++
          [{ attempt := n + 1, submission := s.user_code, evaluation := ev,
             timestamp := now }] ∧
      (code_evaluator_node s r now).submission_history.length = n + 1) ∧
    (∀ ev, r = Except.ok ev → ev.passed = none →
      (code_evaluator_node s r now).attempt_count = n ∧
      (code_evaluator_node s r now).submission_history =
        s.submission_history ++
          [{ attempt := n + 1, submission := s.user_code, evaluation := ev,
             timestamp := now }] ∧
      (code_evaluator_node s r now).submission_history.length = n + 1) ∧
    (∀ e, r = Except.error e →
      (code_evaluator_node s r now).attempt_count = n ∧
      (code_evaluator_node s r now).submission_history =
        s.submission_history) ∧
    s.attempt_count ≤ (code_evaluator_node s r now).attempt_count ∧
    (∀ r1 : Except String String,
      s.attempt_count ≤ (tutor_agent_node s r1).attempt_count) ∧
    (∀ r2 : Except String String,
      s.attempt_count ≤ (coding_challenge_agent_node s r2).attempt_count) ∧
    s.attempt_count ≤ (await_code_node s).attempt_count ∧
    (∀ r3 : Except String Remediation,
      s.attempt_count ≤ (remediation_agent_node s r3).attempt_count) := by
  subst hn
  refine ⟨?_, ?_, ?_, ?_, ?_, ?_, ?_, ?_⟩
  · rintro ev b rfl hp
    cases b <;> simp [code_evaluator_node, hp, hh]
  · rintro ev rfl hp
    simp [code_evaluator_node, hp, hh]
  · rintro e rfl
    simp [code_evaluator_node]
  · cases r with
    | ok ev =>
        rcases hp : ev.passed with _ | b
        · simp [code_evaluator_node, hp]
        · cases b <;> simp [code_evaluator_node, hp]
    | error e => simp [code_evaluator_node]
  · intro r1; cases r1 <;> simp [tutor_agent_node]
  · intro r2; cases r2 <;> simp [coding_challenge_agent_node]
  · by_cases h : truthyStr s.user_code = false <;> simp [await_code_node, h]
  · intro r3; cases r3 <;> simp [remediation_agent_node]

/-- Witness for the amended C1 at a concrete input: one recorded failing
evaluation on the fresh initial state yields attempt counter 1 and
history length 1. -/
theorem code_evaluator_attempt_invariant_witness :
    (code_evaluator_node baseState (Except.ok evFail) "t1").attempt_count = 1 ∧
    (code_evaluator_node baseState (Except.ok evFail) "t1").submission_history.length = 1 := by
  have h := code_evaluator_attempt_invariant baseState (Except.ok evFail) "t1" 0
    rfl rfl
  exact ⟨(h.1 evFail false rfl rfl).1, (h.1 evFail false rfl rfl).2.2⟩

/-- C2: the remediation hint level is the pure, total function
`min(attempt_count, 3)`: monotonic, saturating at 3 for every attempt
count of at least 3, with level 1 at attempt 1, 2 at attempt 2, and 3 at
attempts 3 and 50. -/
theorem hint_level_spec :
    (∀ n, hint_level n = min n 3) ∧
    (∀ m n, m ≤ n → hint_level m ≤ hint_level n) ∧
    (∀ n, 3 ≤ n → hint_level n = 3) ∧
    hint_level 1 = 1 ∧ hint_level 2 = 2 ∧ hint_level 3 = 3 ∧
    hint_level 50 = 3 := by
  refine ⟨fun n => rfl, ?_, ?_, rfl, rfl, rfl, rfl⟩
  · intro m n h
    simp only [hint_level]
    omega
  · intro n h
    simp only [hint_level]
    omega

/-- Witness for C2 at a concrete input. -/
theorem hint_level_spec_witness : hint_level 2 ≤ hint_level 5 :=
  hint_level_spec.2.1 2 5 (by decide)

/-- C3 counterexample: on a concrete errored state the post-evaluation
router does send the state onward to another stage — `route_evaluation`
picks the "retry" label and the conditional edge delivers the errored
state to the remediation stage, not to END. -/
theorem route_evaluation_error_counterexample :
    truthyStr sErr.error = true ∧ sErr.status = "error" ∧
    route_evaluation sErr = Route.retry ∧
    nextNode Node.code_evaluator sErr = some Node.remediation_agent ∧
    Node.remediation_agent ≠ Node.END := by decide

/-- C3 amended: a failing stage records the stage name and message in the
error slot, and the post-evaluation router sends every errored state down
the retry path to the remediation stage (never to completion/END); the
graph then interrupts before the suspend point, so clearing the error
requires a caller re-invocation. -/
theorem route_evaluation_error_retry (s : ChallengeState)
    (h : truthyStr s.error = true) :
    route_evaluation s = Route.retry ∧
    nextNode Node.code_evaluator s = some Node.remediation_agent ∧
    routeTarget (route_evaluation s) ≠ Node.END ∧
    Node.await_code ∈ interrupt_before ∧
    (∀ e now,
      (code_evaluator_node s (Except.error e) now).error = some e ∧
      (code_evaluator_node s (Except.error e) now).error_node =
        some "code_evaluator" ∧
      (code_evaluator_node s (Except.error e) now).status = "error") := by
  have hroute : route_evaluation s = Route.retry := by
    simp [route_evaluation, h]
  refine ⟨hroute, ?_, ?_, by decide, fun e now => ⟨rfl, rfl, rfl⟩⟩
  · simp [nextNode, hroute, routeTarget]
  · simp [hroute, routeTarget]

/-- Witness for the amended C3 at a concrete errored state. -/
theorem route_evaluation_error_retry_witness :
    route_evaluation sErr = Route.retry :=
  (route_evaluation_error_retry sErr (by decide)).1

/-- C4 counterexample: a concrete `submit` call on a session whose
progress status is the terminal "passed" is not rejected with a
precondition error; it succeeds and performs database writes — it records
a new submission against the stored evaluation and re-marks the challenge
complete, so the recorded progress does change. -/
theorem submit_passed_counterexample :
    pPassed.status = "passed" ∧
    submit_challenge true (some pPassed) "print(3)" stPassed =
      SubmitResult.ok
        { evaluation := evPass, remediation := none, status := "passed",
          attempt_count := 2 }
        [DBEffect.updateGraphState "print(3)",
         DBEffect.recordSubmission "print(3)" evPass,
         DBEffect.completeChallenge, DBEffect.unlockNextChallenge] := by
  decide

/-- C4 amended: `submit_challenge` performs no precondition check on the
session status, so a submit call on a session whose progress status is
the terminal "passed" (with cached content and a stored passing
evaluation) is accepted: it returns a success response and records a new
submission, then re-completes the challenge — persisted session state and
recorded progress are both changed. -/
theorem submit_passed_accepts (p : ChallengeProgress) (code : String)
    (st : ChallengeState) (ev : Evaluation)
    (_hstatus : p.status = "passed")
    (hl : truthyStr p.lesson_markdown = true)
    (hc : truthyStr p.coding_challenge = true)
    (hev : st.evaluation = some ev) (hp : ev.passed = some true) :
    submit_challenge true (some p) code st =
      SubmitResult.ok
        { evaluation := ev, remediation := st.remediation,
          status := st.status, attempt_count := st.attempt_count }
        [DBEffect.updateGraphState code, DBEffect.recordSubmission code ev,
         DBEffect.completeChallenge, DBEffect.unlockNextChallenge] := by
  simp [submit_challenge, hl, hc, hev, hp]

/-- Witness for the amended C4 at a concrete passed session. -/
theorem submit_passed_accepts_witness :
    submit_challenge true (some pPassed) "x = 1" stPassed =
      SubmitResult.ok
        { evaluation := evPass, remediation := none, status := "passed",
          attempt_count := 2 }
        [DBEffect.updateGraphState "x = 1",
         DBEffect.recordSubmission "x = 1" evPass,
         DBEffect.completeChallenge, DBEffect.unlockNextChallenge] := by
  have h := submit_passed_accepts pPassed "x = 1" stPassed evPass rfl
    (by decide) (by decide) rfl rfl
  exact h

/-- C5 counterexample: on a concrete evaluating state with a submission
present, a passing evaluation leads to the terminal "passed" state with
`user_code` still non-null — the submission is not cleared on the passing
path. -/
theorem user_code_passed_counterexample :
    sEval.status = "evaluating" ∧ sEval.user_code = some "print(1)" ∧
    (code_evaluator_node sEval (Except.ok evPass) "t1").status = "passed" ∧
    (code_evaluator_node sEval (Except.ok evPass) "t1").user_code =
      some "print(1)" ∧
    (code_evaluator_node sEval (Except.ok evPass) "t1").user_code ≠ none := by
  decide

/-- C5 amended: the submission is cleared only by the remediation stage —
after a failing attempt the remediation stage sets `user_code` to null
before returning to the suspend point; the evaluator itself never clears
it, so `user_code` stays non-null through the intermediate
"needs_remediation" status and into the terminal "passed" state. -/
theorem user_code_clearing (s : ChallengeState) (ev : Evaluation)
    (rem : Remediation) (now : String) :
    ((remediation_agent_node s (Except.ok rem)).user_code = none ∧
     (remediation_agent_node s (Except.ok rem)).status = "awaiting_code") ∧
    (ev.passed = some true →
      (code_evaluator_node s (Except.ok ev) now).user_code = s.user_code ∧
      (code_evaluator_node s (Except.ok ev) now).status = "passed") ∧
    (ev.passed = some false →
      (code_evaluator_node s (Except.ok ev) now).user_code = s.user_code ∧
      (code_evaluator_node s (Except.ok ev) now).status =
        "needs_remediation") := by
  refine ⟨⟨rfl, rfl⟩, ?_, ?_⟩ <;> intro hp <;> simp [code_evaluator_node, hp]

/-- Witness for the amended C5 at a concrete failing evaluation. -/
theorem user_code_clearing_witness :
    (code_evaluator_node sEval (Except.ok evFail) "t1").status =
      "needs_remediation" :=
  ((user_code_clearing sEval evFail
    { hint_level := 1, targeted_hint := "look again",
      encouragement := "keep going" } "t1").2.2 rfl).2

/-- C6 counterexample: executing the suspend-point stage on a concrete
state at "awaiting_code" with no submission is not a no-op — the returned
state differs from the input because the error slot is overwritten with
"No user code submitted". -/
theorem await_code_noop_counterexample :
    sAwait.status = "awaiting_code" ∧ sAwait.user_code = none ∧
    sAwait.error = none ∧
    await_code_node sAwait ≠ sAwait ∧
    (await_code_node sAwait).error = some "No user code submitted" := by
  decide

/-- C6 amended: with no (truthy) submission present the suspend-point
stage keeps status "awaiting_code" and writes "No user code submitted"
into the error slot, leaving every other field unchanged and making no
external call; with a submission present it sets status to "evaluating"
and changes nothing else. -/
theorem await_code_node_spec (s : ChallengeState) :
    (truthyStr s.user_code = false →
      await_code_node s =
        { s with error := some "No user code submitted",
                 status := "awaiting_code" }) ∧
    (truthyStr s.user_code = true →
      await_code_node s = { s with status := "evaluating" }) := by
  constructor <;> intro h <;> simp [await_code_node, h]

/-- Witness for the amended C6 at a concrete suspended state. -/
theorem await_code_node_spec_witness :
    await_code_node sAwait =
      { sAwait with error := some "No user code submitted",
                    status := "awaiting_code" } :=
  (await_code_node_spec sAwait).1 rfl

/-- C7 counterexample: with a concrete decoder failing on both attempts,
the raised error carries only the second (post-normalization) diagnostic,
not the original one and not the raw text; moreover the trailing-comma
normalization is not idempotent ("[1,,]" normalizes to "[1,]", which
normalizes further to "[1]"). -/
theorem parse_repair_counterexample :
    decodeToy "[1,,]" = Except.error "first diagnostic" ∧
    normalizeJson "[1,,]" = "[1,]" ∧
    decodeToy "[1,]" = Except.error "second diagnostic" ∧
    parseWithRepair decodeToy "[1,,]" =
      Except.error "Failed to parse JSON from LLM response: second diagnostic" ∧
    parseWithRepair decodeToy "[1,,]" ≠
      Except.error "Failed to parse JSON from LLM response: first diagnostic" ∧
    normalizeJson (normalizeJson "[1,,]") ≠ normalizeJson "[1,,]" := by
  decide

/-- C7 amended: if the extracted text decodes on the first attempt that
document is returned; otherwise one single-pass trailing-separator
normalization (not idempotent in general) is applied and decoding is
retried exactly once, returning the normalized document on success; if
the second decode also fails, a plain exception is raised whose message
carries the second (post-normalization) decode diagnostic — the raw text
and the original diagnostic are only logged — and no partial document is
ever returned. -/
theorem parse_with_repair_spec {Doc : Type}
    (decode : String → Except String Doc) (text : String) :
    (∀ d, decode text = Except.ok d →
      parseWithRepair decode text = Except.ok d) ∧
    (∀ e d, decode text = Except.error e →
      decode (normalizeJson text) = Except.ok d →
      parseWithRepair decode text = Except.ok d) ∧
    (∀ e e2, decode text = Except.error e →
      decode (normalizeJson text) = Except.error e2 →
      parseWithRepair decode text =
        Except.error ("Failed to parse JSON from LLM response: " ++ e2)) := by
  refine ⟨?_, ?_, ?_⟩
  · intro d h; simp [parseWithRepair, h]
  · intro e d h h2; simp [parseWithRepair, h, h2]
  · intro e e2 h h2; simp [parseWithRepair, h, h2]

/-- Witness for the amended C7 at the concrete decoder. -/
theorem parse_with_repair_spec_witness :
    parseWithRepair decodeToy "[1,,]" =
      Except.error ("Failed to parse JSON from LLM response: " ++
        "second diagnostic") :=
  (parse_with_repair_spec decodeToy "[1,,]").2.2 "first diagnostic"
    "second diagnostic" (by decide) (by decide)

/-- C8 counterexample: on a concrete evaluating state, an exception at
the "passed" access of the evaluator (decoded verdict without a usable
key) is caught and converted to the error status with the stage name
recorded, but it does NOT leave all other fields unchanged: the returned
state carries a submission history grown by the entry that was appended
in place before the exception. -/
theorem stage_error_history_counterexample :
    (code_evaluator_node sEval (Except.ok evNoKey) "t2").status = "error" ∧
    (code_evaluator_node sEval (Except.ok evNoKey) "t2").error_node =
      some "code_evaluator" ∧
    (code_evaluator_node sEval (Except.ok evNoKey) "t2").submission_history ≠
      sEval.submission_history ∧
    (code_evaluator_node sEval
      (Except.ok evNoKey) "t2").submission_history.length =
      sEval.submission_history.length + 1 := by
  decide

/-- C8 amended: every fallible stage catches its exception at its own
boundary and returns the input state with the error message in the error
slot, the originating stage name in `error_node`, and status "error"; no
language-level exception propagates past the workflow boundary (the
stage functions are total, and the remaining stage `await_code_node`
performs no fallible operation).  All other fields are unchanged on
every exception raised before the evaluator's in-place history append —
but an exception raised at the "passed" access after that append returns
the error state with `submission_history` already grown by the new entry
(the equalities below are full structure updates, so they pin every
field on each path). -/
theorem stage_error_boundary (s : ChallengeState) (e : String)
    (now : String) :
    tutor_agent_node s (Except.error e) =
      { s with error := some e, error_node := some "tutor_agent",
               status := "error" } ∧
    coding_challenge_agent_node s (Except.error e) =
      { s with error := some e, error_node := some "coding_challenge_agent",
               status := "error" } ∧
    code_evaluator_node s (Except.error e) now =
      { s with error := some e, error_node := some "code_evaluator",
               status := "error" } ∧
    remediation_agent_node s (Except.error e) =
      { s with error := some e, error_node := some "remediation_agent",
               status := "error" } ∧
    (∀ ev : Evaluation, ev.passed = none →
      code_evaluator_node s (Except.ok ev) now =
        { s with
          submission_history := s.submission_history ++
            [{ attempt := s.attempt_count + 1, submission := s.user_code,
               evaluation := ev, timestamp := now }],
          error := some "KeyError: passed",
          error_node := some "code_evaluator", status := "error" }) := by
  refine ⟨rfl, rfl, rfl, rfl, ?_⟩
  intro ev hp
  simp [code_evaluator_node, hp]

/-- Witness for the amended C8 at a concrete post-append exception. -/
theorem stage_error_boundary_witness :
    code_evaluator_node baseState (Except.ok evNoKey) "t1" =
      { baseState with
        submission_history :=
          [{ attempt := 1, submission := none, evaluation := evNoKey,
             timestamp := "t1" }],
        error := some "KeyError: passed",
        error_node := some "code_evaluator", status := "error" } := by
  have h := (stage_error_boundary baseState "unused" "t1").2.2.2.2 evNoKey rfl
  exact h

/-- C9: a failing evaluation verdict always routes to "retry", whose edge
target is the remediation stage, which in turn always leads back to the
suspend point; the routing decision reads neither `attempt_count` nor
`max_attempts`, so retries are offered for every attempt count. -/
theorem route_retry_unlimited (s : ChallengeState) (ev : Evaluation)
    (hev : s.evaluation = some ev) (hfail : ev.passed = some false) :
    route_evaluation s = Route.retry ∧
    nextNode Node.code_evaluator s = some Node.remediation_agent ∧
    nextNode Node.remediation_agent s = some Node.await_code ∧
    (∀ n m, route_evaluation
        { s with attempt_count := n, max_attempts := m } =
      route_evaluation s) := by
  have hroute : route_evaluation s = Route.retry := by
    by_cases h : truthyStr s.error <;>
      simp [route_evaluation, h, evalPassed, hev, hfail]
  refine ⟨hroute, ?_, rfl, fun n m => rfl⟩
  simp [nextNode, hroute, routeTarget]

/-- Witness for C9 at a concrete failing state with a huge attempt
count. -/
theorem route_retry_unlimited_witness :
    route_evaluation
      { sEval with evaluation := some evFail, attempt_count := 1000000 } =
      Route.retry :=
  (route_retry_unlimited
    { sEval with evaluation := some evFail, attempt_count := 1000000 }
    evFail rfl rfl).1

/-- C10: the hint level computed for an explicit attempt count of 0 is
min(0, 3) = 0, strictly below the documented 1-3 range; the Python
default of 1 on the `attempt_count` parameter of `run_remediation_agent`
applies only when the argument is omitted, and the workflow always passes
the argument explicitly. -/
theorem hint_level_zero :
    hint_level 0 = 0 ∧ hint_level 0 < 1 ∧
    hint_level remediation_default_attempt_count = 1 := by decide

end Gnosis
